import Mathlib

/-!
Verification development for the PantryChef recipe recommender.

The source file src/app.py parses a comma-separated pantry string into a
set of normalized ingredient tokens, keeps the recipes of the catalog that
share at least one ingredient with the pantry, ranks those candidates by a
score predicted from per-recipe features, and displays each ranked recipe
with its missing-ingredient set.

The development below embeds that pipeline shallowly: Python string
operations become functions on lists of characters, Python sets become
finite sets of strings, the recipe records become a structure, and the
externally loaded statistical model is abstracted as a score parameter.
The deterministic scoring formula described by the specification, which is
not present in src/app.py, is modelled separately from the specification
text and clearly marked as such.
-/

/-! ### Python string primitives -/

/-- Embeds Python str.strip on the character list of a string: drop
whitespace characters from both ends. -/
def stripChars (l : List Char) : List Char :=
  ((l.dropWhile Char.isWhitespace).reverse.dropWhile Char.isWhitespace).reverse

/-- Embeds Python str.strip for strings. -/
def pyStrip (s : String) : String :=
  String.mk (stripChars s.data)

/-- Embeds Python str.lower: lower-case every character. -/
def pyLower (s : String) : String :=
  String.mk (s.data.map Char.toLower)

/-- Helper for splitting on commas: walks the character list accumulating
the current piece in reverse. Embeds the semantics of Python
str.split with a one-character separator. -/
def splitCommaAux : List Char → List Char → List String
  | [], acc => [String.mk acc.reverse]
  | c :: cs, acc =>
      if c = ',' then String.mk acc.reverse :: splitCommaAux cs []
      else splitCommaAux cs (c :: acc)

/-- Embeds Python s.split(",") : every maximal comma-free segment becomes
one piece; the empty string yields one empty piece, and adjacent commas
yield empty pieces. -/
def pySplitComma (s : String) : List String :=
  splitCommaAux s.data []

/-! ### Data model -/

/-- One catalog record, with the fields read by src/app.py: the display
name, the ingredient list, the popularity rating and the complexity
count. The rating is a rational number standing for the Python float. -/
structure Recipe where
  recipe_name : String
  ingredients_list : List String
  rating : ℚ
  recipe_complexity : ℕ
deriving DecidableEq

/-- The ingredient set of a recipe: src/app.py line 101 and line 113 both
form set(recipe[ingredients_list]). -/
def ingredientsSet (r : Recipe) : Finset String :=
  r.ingredients_list.toFinset

/-! ### Embedding of the src/app.py pipeline -/

/-- Embeds src/app.py line 94: the raw text is split on commas and each
piece is stripped and lower-cased; the results form a set. Note that
pieces that are empty after stripping are kept as the empty token. -/
def user_ingredients (s : String) : Finset String :=
  ((pySplitComma s).map (fun item => pyLower (pyStrip item))).toFinset

/-- Embeds the input-validation branch of src/app.py line 90: the request
is rejected, before any parsing or ranking, exactly when the raw text
strips to the empty string. -/
def user_input_rejected (s : String) : Prop :=
  pyStrip s = ""

instance (s : String) : Decidable (user_input_rejected s) := by
  unfold user_input_rejected; infer_instance

/-- Embeds src/app.py lines 99 to 103: the candidates are the catalog
recipes whose ingredient set meets the pantry. -/
def candidate_recipes (pantry : Finset String) (catalog : List Recipe) : List Recipe :=
  catalog.filter (fun r => (pantry ∩ ingredientsSet r).Nonempty)

/-- The feature row produced for one candidate, src/app.py lines 112
to 120. -/
structure Features where
  match_pct : ℚ
  pantry_util : ℚ
  missing_count : ℕ
  recipe_complexity : ℕ
  rating : ℚ
deriving DecidableEq

/-- Embeds src/app.py calculate_features, lines 112 to 120. Division is
rational division; the divisors are shown non-zero separately. -/
def calculate_features (pantry : Finset String) (r : Recipe) : Features :=
  { match_pct := ((pantry ∩ ingredientsSet r).card : ℚ) / ((ingredientsSet r).card : ℚ)
    pantry_util := ((pantry ∩ ingredientsSet r).card : ℚ) / ((pantry.card : ℚ))
    missing_count := (ingredientsSet r).card - (pantry ∩ ingredientsSet r).card
    recipe_complexity := r.recipe_complexity
    rating := r.rating }

/-- Embeds src/app.py line 138: the ingredients of the recipe the user
does not have. -/
def missing_ingredients (pantry : Finset String) (r : Recipe) : Finset String :=
  ingredientsSet r \ pantry

/-- Embeds src/app.py lines 109 to 131: every candidate is scored by the
loaded model on its feature row and the candidates are sorted by that
score, descending. The trained model is a downloaded artifact, not code
of src/app.py, so it is abstracted as the parameter predict; and the
pandas sort only guarantees the descending order, so theorems about this
definition use only membership and sortedness, never the tie order. -/
def sorted_recipes (predict : Features → ℚ) (pantry : Finset String)
    (catalog : List Recipe) : List Recipe :=
  List.insertionSort
    (fun a b => predict (calculate_features pantry b) ≤ predict (calculate_features pantry a))
    (candidate_recipes pantry catalog)

/-! ### The deterministic ranking engine described by the specification

The deterministic scorer belongs to a later iteration of the repository
that is not in src/; src/app.py is the model-based iteration. The
definitions below are therefore modelled from the specification text,
section 4, and are marked as such. -/

/-- Modelled from the spec: parsePantry of section 4.1, absent from
src/app.py; split on commas, strip and lower-case each piece, discard
pieces that are empty after stripping, and collect the rest as a set. -/
def parsePantry (rawText : String) : Finset String :=
  (((pySplitComma rawText).map (fun p => pyLower (pyStrip p))).filter
    (fun t => t ≠ "")).toFinset

/-- Modelled from the spec: the shared ingredients, step 1 of the ranking
engine in section 4.2. -/
def commonOf (pantry : Finset String) (r : Recipe) : Finset String :=
  pantry ∩ ingredientsSet r

/-- Modelled from the spec: the ingredients the user lacks, step 1 of the
ranking engine in section 4.2. -/
def missingOf (pantry : Finset String) (r : Recipe) : Finset String :=
  ingredientsSet r \ pantry

/-- Modelled from the spec: linear reward per shared ingredient. -/
def ingredientMatchScore (pantry : Finset String) (r : Recipe) : ℚ :=
  ((commonOf pantry r).card : ℚ) * 20

/-- Modelled from the spec: linear penalty per lacking ingredient. -/
def missingPenalty (pantry : Finset String) (r : Recipe) : ℚ :=
  ((missingOf pantry r).card : ℚ) * 50

/-- Modelled from the spec: fixed bonus when nothing is missing. -/
def perfectMatchBonus (pantry : Finset String) (r : Recipe) : ℚ :=
  if missingOf pantry r = ∅ then 50 else 0

/-- Modelled from the spec: small contribution from the rating. -/
def popularityBonus (r : Recipe) : ℚ :=
  r.rating * 2

/-- Modelled from the spec: step 3 of section 4.2, the additive final
score. -/
def finalScore (pantry : Finset String) (r : Recipe) : ℚ :=
  ingredientMatchScore pantry r - missingPenalty pantry r
    + perfectMatchBonus pantry r + popularityBonus r

/-- Modelled from the spec: the output unit of the deterministic engine,
section 3. -/
structure ScoredRecipe where
  recipe : Recipe
  score : ℚ
  missingIngredients : Finset String
  missingCount : ℕ
deriving DecidableEq

/-- Modelled from the spec: wrap one recipe with its score and missing
ingredient data. -/
def scoreRecipe (pantry : Finset String) (r : Recipe) : ScoredRecipe :=
  { recipe := r
    score := finalScore pantry r
    missingIngredients := missingOf pantry r
    missingCount := (missingOf pantry r).card }

/-- Modelled from the spec: the surviving entries of section 4.2 step 4,
in catalog order: every scored recipe whose final score is strictly
positive. -/
def admittedEntries (pantry : Finset String) (catalog : List Recipe) : List ScoredRecipe :=
  (catalog.map (scoreRecipe pantry)).filter (fun sr => 0 < sr.score)

/-- Modelled from the spec: the deterministic ranking engine of section
4.2; keep the entries with strictly positive score and sort them by
score descending with a stable sort (insertion sort with the non-strict
comparison is stable: an element is placed before the first already
placed element whose score is less than or equal to its own, hence
never before an earlier element of equal score). -/
def rank (pantry : Finset String) (catalog : List Recipe) : List ScoredRecipe :=
  List.insertionSort (fun a b => b.score ≤ a.score) (admittedEntries pantry catalog)

/-! ### Concrete fixtures from the scenarios of the specification -/

/-- The pantry of scenarios 1 and 2. -/
def pantryA : Finset String :=
  {"chicken breast", "rice", "onion"}

/-- Recipe A of scenario 1: exactly the pantry ingredients, rating 4. -/
def recipeA : Recipe :=
  { recipe_name := "Recipe A"
    ingredients_list := ["chicken breast", "rice", "onion"]
    rating := 4
    recipe_complexity := 7 }

/-- Recipe B of scenario 2: the pantry ingredients plus two more,
rating 4. -/
def recipeB : Recipe :=
  { recipe_name := "Recipe B"
    ingredients_list := ["chicken breast", "rice", "onion", "beef broth", "celery"]
    rating := 4
    recipe_complexity := 9 }

/-- Recipe C of scenario 4: empty ingredient list, rating 3. -/
def recipeC : Recipe :=
  { recipe_name := "Recipe C"
    ingredients_list := []
    rating := 3
    recipe_complexity := 1 }

/-- The pantry used for the tie scenario. -/
def pantryDE : Finset String :=
  {"a", "b", "c", "d"}

/-- Recipe D of scenario 5: four shared ingredients, one missing,
rating 5, so its final score is 80 - 50 + 0 + 10 = 40. -/
def recipeD : Recipe :=
  { recipe_name := "Recipe D"
    ingredients_list := ["a", "b", "c", "d", "x"]
    rating := 5
    recipe_complexity := 2 }

/-- Recipe E of scenario 5: like recipe D with a different missing
ingredient, so the same score 40. -/
def recipeE : Recipe :=
  { recipe_name := "Recipe E"
    ingredients_list := ["a", "b", "c", "d", "y"]
    rating := 5
    recipe_complexity := 3 }

/-- A fixed stand-in for the downloaded model, used to instantiate the
abstracted score parameter in closed statements; the membership facts
proved about the pipeline hold for every such parameter. -/
def predict0 : Features → ℚ :=
  fun _ => 0

/-! ### Helper lemmas -/

theorem splitCommaAux_ne_nil (l : List Char) : ∀ acc, splitCommaAux l acc ≠ [] := by
  induction l with
  | nil => intro acc; simp [splitCommaAux]
  | cons c cs ih =>
      intro acc
      rw [splitCommaAux]
      by_cases hc : c = ',' <;> simp [hc, ih]

theorem user_ingredients_nonempty (s : String) : (user_ingredients s).Nonempty := by
  obtain ⟨x, hx⟩ := List.exists_mem_of_ne_nil _ (splitCommaAux_ne_nil s.data [])
  exact ⟨pyLower (pyStrip x), List.mem_toFinset.mpr (List.mem_map_of_mem _ hx)⟩

theorem parse_empty_user_ingredients (s : String) (h : parsePantry s = ∅) :
    user_ingredients s = {""} := by
  have hfil : ((pySplitComma s).map (fun p => pyLower (pyStrip p))).filter
      (fun t => t ≠ "") = [] := by
    rwa [parsePantry, List.toFinset_eq_empty_iff] at h
  have hall : ∀ y ∈ (pySplitComma s).map (fun p => pyLower (pyStrip p)), y = "" := by
    intro y hy
    by_contra hne
    have hmemf : y ∈ ((pySplitComma s).map (fun p => pyLower (pyStrip p))).filter
        (fun t => t ≠ "") :=
      List.mem_filter.mpr ⟨hy, by simp [hne]⟩
    rw [hfil] at hmemf
    exact absurd hmemf (List.not_mem_nil y)
  obtain ⟨x, hx⟩ := List.exists_mem_of_ne_nil _ (splitCommaAux_ne_nil s.data [])
  have hmem : pyLower (pyStrip x) ∈ (pySplitComma s).map (fun p => pyLower (pyStrip p)) :=
    List.mem_map_of_mem _ hx
  have hemp : "" ∈ (pySplitComma s).map (fun p => pyLower (pyStrip p)) := by
    have he := hall _ hmem
    rwa [he] at hmem
  rw [user_ingredients]
  ext a
  simp only [List.mem_toFinset, Finset.mem_singleton]
  exact ⟨fun ha => hall a ha, fun ha => ha ▸ hemp⟩

theorem mem_candidate_recipes (p : Finset String) (c : List Recipe) (r : Recipe) :
    r ∈ candidate_recipes p c ↔ r ∈ c ∧ (p ∩ ingredientsSet r).Nonempty := by
  simp [candidate_recipes]

theorem mem_sorted_recipes (predict : Features → ℚ) (p : Finset String)
    (c : List Recipe) (r : Recipe) :
    r ∈ sorted_recipes predict p c ↔ r ∈ candidate_recipes p c :=
  (List.perm_insertionSort _ _).mem_iff

theorem filter_orderedInsert {α : Type} (key : α → ℚ) (v : ℚ) (x : α) (l : List α) :
    (List.orderedInsert (fun a b => key b ≤ key a) x l).filter (fun y => key y = v) =
      if key x = v then x :: l.filter (fun y => key y = v)
      else l.filter (fun y => key y = v) := by
  induction l with
  | nil => simp [List.orderedInsert, List.filter_cons]
  | cons b t ih =>
      rw [List.orderedInsert]
      by_cases hb : key b ≤ key x
      · simp only [if_pos hb, List.filter_cons]
        by_cases hx : key x = v <;> simp [hx]
      · simp only [if_neg hb, List.filter_cons, ih]
        by_cases hx : key x = v
        · have hbv : ¬ key b = v := by
            intro h
            exact hb (le_of_eq (h.trans hx.symm))
          simp [hx, hbv]
        · simp [hx]

theorem filter_insertionSort {α : Type} (key : α → ℚ) (v : ℚ) (l : List α) :
    (List.insertionSort (fun a b => key b ≤ key a) l).filter (fun y => key y = v) =
      l.filter (fun y => key y = v) := by
  induction l with
  | nil => rfl
  | cons a t ih =>
      rw [List.insertionSort, filter_orderedInsert, ih, List.filter_cons]
      by_cases ha : key a = v <;> simp [ha]

theorem sorted_rank (p : Finset String) (c : List Recipe) :
    List.Sorted (fun a b : ScoredRecipe => b.score ≤ a.score) (rank p c) := by
  haveI ht : IsTotal ScoredRecipe (fun a b => b.score ≤ a.score) :=
    ⟨fun a b => le_total b.score a.score⟩
  haveI htr : IsTrans ScoredRecipe (fun a b => b.score ≤ a.score) :=
    ⟨fun a b c h1 h2 => le_trans h2 h1⟩
  exact List.sorted_insertionSort _ _

/-! ### Concrete evaluations -/

theorem finalScore_recipeA : finalScore pantryA recipeA = 118 := by
  have h1 : (commonOf pantryA recipeA).card = 3 := by decide
  have h2 : missingOf pantryA recipeA = ∅ := by decide
  rw [finalScore, ingredientMatchScore, missingPenalty, perfectMatchBonus,
    popularityBonus, h1, h2]
  norm_num [recipeA]

theorem finalScore_recipeB : finalScore pantryA recipeB = -32 := by
  have h1 : (commonOf pantryA recipeB).card = 3 := by decide
  have h2 : (missingOf pantryA recipeB).card = 2 := by decide
  have h3 : ¬ missingOf pantryA recipeB = ∅ := by decide
  rw [finalScore, ingredientMatchScore, missingPenalty, perfectMatchBonus,
    popularityBonus, h1, h2, if_neg h3]
  norm_num [recipeB]

theorem finalScore_recipeD : finalScore pantryDE recipeD = 40 := by
  have h1 : (commonOf pantryDE recipeD).card = 4 := by decide
  have h2 : (missingOf pantryDE recipeD).card = 1 := by decide
  have h3 : ¬ missingOf pantryDE recipeD = ∅ := by decide
  rw [finalScore, ingredientMatchScore, missingPenalty, perfectMatchBonus,
    popularityBonus, h1, h2, if_neg h3]
  norm_num [recipeD]

theorem finalScore_recipeE : finalScore pantryDE recipeE = 40 := by
  have h1 : (commonOf pantryDE recipeE).card = 4 := by decide
  have h2 : (missingOf pantryDE recipeE).card = 1 := by decide
  have h3 : ¬ missingOf pantryDE recipeE = ∅ := by decide
  rw [finalScore, ingredientMatchScore, missingPenalty, perfectMatchBonus,
    popularityBonus, h1, h2, if_neg h3]
  norm_num [recipeE]

theorem empty_ingredients_facts (p : Finset String) (r : Recipe)
    (h : r.ingredients_list = []) :
    commonOf p r = ∅ ∧ missingOf p r = ∅ ∧ finalScore p r = 50 + r.rating * 2 := by
  have hset : ingredientsSet r = ∅ := by rw [ingredientsSet, h]; rfl
  have hcom : commonOf p r = ∅ := by rw [commonOf, hset, Finset.inter_empty]
  have hmis : missingOf p r = ∅ := by rw [missingOf, hset, Finset.empty_sdiff]
  refine ⟨hcom, hmis, ?_⟩
  rw [finalScore, ingredientMatchScore, missingPenalty, perfectMatchBonus,
    popularityBonus, hcom, hmis]
  norm_num

theorem finalScore_recipeC : finalScore pantryA recipeC = 56 := by
  have h := (empty_ingredients_facts pantryA recipeC rfl).2.2
  rw [h]
  norm_num [recipeC]

theorem rank_singleA : rank pantryA [recipeA] = [scoreRecipe pantryA recipeA] := by
  have hs : (scoreRecipe pantryA recipeA).score = 118 := finalScore_recipeA
  have hpos : (0 : ℚ) < (scoreRecipe pantryA recipeA).score := by rw [hs]; norm_num
  rw [rank, admittedEntries]
  simp [List.filter_cons, hpos, List.insertionSort]

theorem rank_DE :
    rank pantryDE [recipeD, recipeE]
      = [scoreRecipe pantryDE recipeD, scoreRecipe pantryDE recipeE] := by
  have hd : (scoreRecipe pantryDE recipeD).score = 40 := finalScore_recipeD
  have he : (scoreRecipe pantryDE recipeE).score = 40 := finalScore_recipeE
  have hdpos : (0 : ℚ) < (scoreRecipe pantryDE recipeD).score := by rw [hd]; norm_num
  have hepos : (0 : ℚ) < (scoreRecipe pantryDE recipeE).score := by rw [he]; norm_num
  have hle : (scoreRecipe pantryDE recipeE).score ≤ (scoreRecipe pantryDE recipeD).score := by
    rw [hd, he]
  rw [rank, admittedEntries]
  simp [List.filter_cons, hdpos, hepos, List.insertionSort, List.orderedInsert, hle]

/-! ### Claims -/

/-- C1: the ranking key of the deterministic engine equals the additive
formula, shared-count times 20 minus missing-count times 50 plus the
fixed bonus of 50 when nothing is missing plus twice the rating; on the
pantry of scenario 1 and recipe A the key is 118. -/
theorem claimC1_score_formula :
    (∀ (p : Finset String) (r : Recipe),
      finalScore p r
        = ((p ∩ ingredientsSet r).card : ℚ) * 20
            - ((ingredientsSet r \ p).card : ℚ) * 50
            + (if (ingredientsSet r \ p).card = 0 then (50 : ℚ) else 0)
            + r.rating * 2)
    ∧ finalScore pantryA recipeA = 118 := by
  refine ⟨fun p r => ?_, finalScore_recipeA⟩
  rw [finalScore, ingredientMatchScore, missingPenalty, perfectMatchBonus,
    popularityBonus, commonOf, missingOf]
  by_cases hm : ingredientsSet r \ p = ∅
  · rw [if_pos hm, if_pos (Finset.card_eq_zero.mpr hm)]
  · rw [if_neg hm, if_neg (fun h => hm (Finset.card_eq_zero.mp h))]

/-- C2 counterexample: recipe B of scenario 2 has formula score -32, yet
it appears in the ranked output of the code, whose only admission gate is
the non-empty-overlap candidate filter; so admission is not equivalent to
strict positivity of the formula score. -/
theorem claimC2_counterexample :
    recipeB ∈ sorted_recipes predict0 pantryA [recipeB]
      ∧ finalScore pantryA recipeB = -32 :=
  ⟨by decide, finalScore_recipeB⟩

/-- C2 amended: a recipe appears in the ranked result exactly when it
occurs in the catalog and its ingredient set meets the pantry; this
overlap test is the sole admission gate, for every score function. -/
theorem claimC2_admission_gate (predict : Features → ℚ) (p : Finset String)
    (c : List Recipe) (r : Recipe) :
    r ∈ sorted_recipes predict p c ↔ r ∈ c ∧ (p ∩ ingredientsSet r).Nonempty :=
  (mem_sorted_recipes predict p c r).trans (mem_candidate_recipes p c r)

/-- C3: the deterministic engine returns its entries sorted by score
in non-increasing order, equal-score entries keep the order in which
their recipes occur in the catalog, and in the concrete tie scenario the
two recipes D and E, both of score 40, come out in catalog order. -/
theorem claimC3_ordering :
    (∀ (p : Finset String) (c : List Recipe),
      List.Sorted (fun a b : ScoredRecipe => b.score ≤ a.score) (rank p c))
    ∧ (∀ (p : Finset String) (c : List Recipe) (v : ℚ),
      (rank p c).filter (fun sr => sr.score = v)
        = (admittedEntries p c).filter (fun sr => sr.score = v))
    ∧ (rank pantryDE [recipeD, recipeE]).map ScoredRecipe.recipe = [recipeD, recipeE]
    ∧ finalScore pantryDE recipeD = 40 ∧ finalScore pantryDE recipeE = 40 := by
  refine ⟨sorted_rank, fun p c v => ?_, ?_, finalScore_recipeD, finalScore_recipeE⟩
  · exact filter_insertionSort ScoredRecipe.score v (admittedEntries p c)
  · rw [rank_DE]; rfl

/-- C4 counterexample: the code keeps pieces that are empty after
stripping, so the parse of the text a,,b contains the empty token and
differs from the parse described by the specification, which discards
such pieces. -/
theorem claimC4_counterexample :
    "" ∈ user_ingredients "a,,b" ∧ user_ingredients "a,,b" ≠ parsePantry "a,,b" := by
  decide

/-- C4 amended: pantry parsing splits the raw string on commas, strips
and lower-cases every piece, and returns the set of all resulting
tokens; duplicates collapse and order is irrelevant since the result is
a set, but pieces that are empty after stripping are kept as the empty
token rather than discarded. -/
theorem claimC4_parse_membership (s x : String) :
    x ∈ user_ingredients s
      ↔ ∃ piece ∈ pySplitComma s, pyLower (pyStrip piece) = x := by
  simp [user_ingredients]

/-- C5 counterexample: a lone comma refutes the claim that a text whose
parse, in the sense of section 4.1, is empty gets rejected before the
engine runs: the section 4.1 parse of a lone comma is the empty set,
yet the text does not strip to the empty string, so the line 90 check
does not fire and the pipeline runs with the code-parsed pantry, the
singleton set holding the empty token. -/
theorem claimC5_counterexample :
    parsePantry "," = ∅
      ∧ ¬ user_input_rejected ","
      ∧ user_ingredients "," = {""} := by
  decide

/-- C5 amended: the caller rejects, before invoking the engine, exactly
the raw texts that strip to the empty string; a text whose parse in the
sense of section 4.1 is empty is not otherwise rejected, and for such a
text the engine runs with the code-parsed pantry, which is the
singleton set holding the empty token; the engine never receives an
empty pantry set only because the code parse keeps empty tokens and so
always yields a non-empty set. -/
theorem claimC5_validation (s : String) :
    (pyStrip s = "" → user_input_rejected s)
    ∧ (user_input_rejected s → pyStrip s = "")
    ∧ (user_ingredients s).Nonempty
    ∧ (parsePantry s = ∅ → user_ingredients s = {""}) :=
  ⟨fun h => h, fun h => h, user_ingredients_nonempty s,
    parse_empty_user_ingredients s⟩

/-- C5 witness: whitespace-only text is rejected, and the lone comma,
whose section 4.1 parse is empty, hands the engine exactly the
singleton pantry holding the empty token. -/
theorem claimC5_witness :
    user_input_rejected "   " ∧ user_ingredients "," = {""} :=
  ⟨(claimC5_validation "   ").1 (by decide),
    (claimC5_validation ",").2.2.2 (by decide)⟩

/-- C6 counterexample: recipe C of scenario 4, with an empty ingredient
list and rating 3, has formula score 56 but is not admitted to the
output, because the candidate filter of the code requires a non-empty
overlap with the pantry. -/
theorem claimC6_counterexample :
    finalScore pantryA recipeC = 56
      ∧ recipeC ∉ sorted_recipes predict0 pantryA [recipeC] :=
  ⟨finalScore_recipeC, by decide⟩

/-- C6 amended: a recipe with an empty ingredient set yields empty
common and missing sets and formula score 50 plus twice the rating, but
the code never admits it to the output, whatever its rating, since an
empty ingredient set cannot meet the pantry. -/
theorem claimC6_empty_recipe (predict : Features → ℚ) (p : Finset String)
    (c : List Recipe) (r : Recipe) (h : r.ingredients_list = []) :
    commonOf p r = ∅ ∧ missingOf p r = ∅
      ∧ finalScore p r = 50 + r.rating * 2
      ∧ r ∉ sorted_recipes predict p c := by
  obtain ⟨h1, h2, h3⟩ := empty_ingredients_facts p r h
  refine ⟨h1, h2, h3, fun hmem => ?_⟩
  have hover := ((mem_candidate_recipes p c r).mp
    ((mem_sorted_recipes predict p c r).mp hmem)).2
  have hset : ingredientsSet r = ∅ := by rw [ingredientsSet, h]; rfl
  rw [hset, Finset.inter_empty] at hover
  exact Finset.not_nonempty_empty hover

/-- C6 witness: the amended statement applied to recipe C. -/
theorem claimC6_witness :
    recipeC.ingredients_list = []
      ∧ (commonOf pantryA recipeC = ∅ ∧ missingOf pantryA recipeC = ∅
        ∧ finalScore pantryA recipeC = 50 + recipeC.rating * 2
        ∧ recipeC ∉ sorted_recipes predict0 pantryA [recipeC]) :=
  ⟨rfl, claimC6_empty_recipe predict0 pantryA [recipeC] recipeC rfl⟩

/-- C7: the displayed missing-ingredient set is contained in the recipe
ingredients, is disjoint from the pantry, and its size is the
missing-count feature computed for the recipe. -/
theorem claimC7_missing_invariant (p : Finset String) (r : Recipe) :
    missing_ingredients p r ⊆ ingredientsSet r
    ∧ Disjoint (missing_ingredients p r) p
    ∧ (calculate_features p r).missing_count = (missing_ingredients p r).card := by
  refine ⟨Finset.sdiff_subset, Finset.sdiff_disjoint, ?_⟩
  have hc := Finset.card_sdiff_add_card_inter (ingredientsSet r) p
  show (ingredientsSet r).card - (p ∩ ingredientsSet r).card
    = (ingredientsSet r \ p).card
  rw [Finset.inter_comm p (ingredientsSet r)]
  omega

/-- C8: the deterministic ranking engine is a pure function of the
pantry and the catalog; two runs on the same inputs produce the same
ordered output. -/
theorem claimC8_deterministic (p : Finset String) (c : List Recipe)
    (o o' : List ScoredRecipe) (h : rank p c = o) (h' : rank p c = o') : o = o' :=
  h ▸ h' ▸ rfl

/-- C8 witness: two derivations of the run on scenario 1 coincide, and
the common value is the singleton ranked list containing recipe A. -/
theorem claimC8_witness :
    rank pantryA [recipeA] = [scoreRecipe pantryA recipeA] :=
  claimC8_deterministic pantryA [recipeA] _ _ rfl rank_singleA

/-- C9: every recipe in the ranked output of the code shares at least
one ingredient with the pantry, for every score function, because the
candidate filter admits exactly the recipes whose ingredient set meets
the pantry. -/
theorem claimC9_overlap (predict : Features → ℚ) (p : Finset String)
    (c : List Recipe) (r : Recipe) (h : r ∈ sorted_recipes predict p c) :
    (p ∩ ingredientsSet r).Nonempty :=
  ((mem_candidate_recipes p c r).mp ((mem_sorted_recipes predict p c r).mp h)).2

/-- C9 witness: recipe A is ranked against the scenario 1 pantry and
indeed shares an ingredient with it. -/
theorem claimC9_witness :
    recipeA ∈ sorted_recipes predict0 pantryA [recipeA]
      ∧ (pantryA ∩ ingredientsSet recipeA).Nonempty :=
  ⟨by decide, claimC9_overlap predict0 pantryA [recipeA] recipeA (by decide)⟩

/-- C10: the divisors of the feature computation are never zero: any
parse of the raw text yields at least one pantry token, and every
candidate passing the overlap filter has at least one ingredient. -/
theorem claimC10_no_zero_divisors :
    (∀ s : String, 1 ≤ (user_ingredients s).card)
    ∧ (∀ (p : Finset String) (c : List Recipe) (r : Recipe),
      r ∈ candidate_recipes p c → 1 ≤ (ingredientsSet r).card) := by
  constructor
  · intro s
    exact Finset.one_le_card.mpr (user_ingredients_nonempty s)
  · intro p c r h
    obtain ⟨x, hx⟩ := ((mem_candidate_recipes p c r).mp h).2
    exact Finset.one_le_card.mpr ⟨x, (Finset.mem_inter.mp hx).2⟩

/-- C10 witness: the empty raw text still parses to one token, and
recipe A is a candidate with a non-empty ingredient list. -/
theorem claimC10_witness :
    1 ≤ (user_ingredients "").card
      ∧ recipeA ∈ candidate_recipes pantryA [recipeA]
      ∧ 1 ≤ (ingredientsSet recipeA).card :=
  ⟨claimC10_no_zero_divisors.1 "", by decide,
    claimC10_no_zero_divisors.2 pantryA [recipeA] recipeA (by decide)⟩
